import Mathlib

/-!
Verification development for the AI carousel generator (`src/app.py`).

The program turns a topic string into a square PowerPoint deck:
a cover slide (title + subtitle) followed by one slide per
question/answer pair, all black background, white Calibri text.

We shallowly embed:
* the pydantic data model (`CoverSlide`, `QASlide`, `Carousel`) and the
  validation pydantic performs on a raw structured-completion payload;
* the renderer `build_pptx` as a pure function onto an abstract document
  model recording exactly the attributes the source sets (slide size,
  layout index, background fill, and for each text region its text,
  font name/size/boldness/color, alignment, vertical anchor, margins);
* the filename construction and the submit handler of the Streamlit form.
-/

/-- The error `pydantic.ValidationError` as surfaced by the
structured-completion call (`sllm.complete`); the spec calls it
`SchemaViolation`. -/
structure SchemaViolation where
  msg : String
deriving DecidableEq, Repr

/-- Embeds `class CoverSlide(BaseModel)` (src/app.py lines 41-45):
`slide_number : int`, `type : Literal["cover"]`, `title : str`,
`subtitle : str`.  The field description "must be 1" is documentation
passed to the model, not a pydantic validator. -/
structure CoverSlide where
  slide_number : Int
  type : String
  title : String
  subtitle : String
deriving DecidableEq, Repr

/-- Embeds `class QASlide(BaseModel)` (src/app.py lines 48-52). -/
structure QASlide where
  slide_number : Int
  type : String
  question : String
  answer : String
deriving DecidableEq, Repr

/-- Embeds `class Carousel(BaseModel)` (src/app.py lines 55-57):
one cover plus a list of QA slides; the list has no length bound. -/
structure Carousel where
  cover : CoverSlide
  qa_slides : List QASlide
deriving DecidableEq, Repr

/-- A raw cover block as found in a structured-completion payload,
before pydantic validation: each declared field either parsed to the
declared type (`some`) or is missing / of the wrong primitive type
(`none`). -/
structure RawCover where
  slide_number : Option Int
  type : Option String
  title : Option String
  subtitle : Option String
deriving DecidableEq, Repr

/-- A raw question/answer block before pydantic validation. -/
structure RawQA where
  slide_number : Option Int
  type : Option String
  question : Option String
  answer : Option String
deriving DecidableEq, Repr

/-- A raw completion payload for the `Carousel` model: the `cover`
block and the `qa_slides` array may each be missing. -/
structure RawCarousel where
  cover : Option RawCover
  qa_slides : Option (List RawQA)
deriving DecidableEq, Repr

/-- Pydantic validation of one `CoverSlide`: all four fields are
required, `slide_number` must be an integer, and `type` must equal the
literal tag "cover".  No constraint is placed on the integer value. -/
def validateCover (r : RawCover) : Except SchemaViolation CoverSlide :=
  match r.slide_number, r.type, r.title, r.subtitle with
  | some n, some t, some ti, some su =>
      if t = "cover" then .ok ⟨n, t, ti, su⟩
      else .error ⟨"type must be the literal tag cover"⟩
  | _, _, _, _ => .error ⟨"cover: missing or ill-typed field"⟩

/-- Pydantic validation of one `QASlide`: all four fields required,
`type` must equal the literal tag "qa"; the integer value is free. -/
def validateQA (r : RawQA) : Except SchemaViolation QASlide :=
  match r.slide_number, r.type, r.question, r.answer with
  | some n, some t, some q, some a =>
      if t = "qa" then .ok ⟨n, t, q, a⟩
      else .error ⟨"type must be the literal tag qa"⟩
  | _, _, _, _ => .error ⟨"qa: missing or ill-typed field"⟩

/-- Pydantic validation of `List[QASlide]`: every element must
validate; the empty list is accepted (no minimum length declared). -/
def validateQAList : List RawQA → Except SchemaViolation (List QASlide)
  | [] => .ok []
  | r :: rs => do
      let q ← validateQA r
      let qs ← validateQAList rs
      .ok (q :: qs)

/-- Pydantic validation of `Carousel`: both fields required; no
constraint relates the `slide_number` values to each other. -/
def validateCarousel (r : RawCarousel) : Except SchemaViolation Carousel :=
  match r.cover, r.qa_slides with
  | some rc, some rqs => do
      let c ← validateCover rc
      let qs ← validateQAList rqs
      .ok ⟨c, qs⟩
  | _, _ => .error ⟨"carousel: missing cover or qa_slides"⟩

/-- Embeds `Except.isOk`, used to state acceptance/rejection. -/
def isOkB {ε α : Type} : Except ε α → Bool
  | .ok _ => true
  | .error _ => false

/-- Serialize a well-typed `Carousel` back into a raw payload (every
field present); used to show the validator accepts any position
values. -/
def CoverSlide.toRaw (c : CoverSlide) : RawCover :=
  ⟨some c.slide_number, some c.type, some c.title, some c.subtitle⟩

/-- Serialize one QA record back into a raw payload. -/
def QASlide.toRaw (q : QASlide) : RawQA :=
  ⟨some q.slide_number, some q.type, some q.question, some q.answer⟩

/-- Serialize a `Carousel` back into a raw payload. -/
def Carousel.toRaw (c : Carousel) : RawCarousel :=
  ⟨some c.cover.toRaw, some (c.qa_slides.map QASlide.toRaw)⟩

/-! ## The rendered document model (python-pptx attributes the source sets) -/

/-- Embeds `pptx.dml.color.RGBColor`. -/
structure RGBColor where
  r : Nat
  g : Nat
  b : Nat
deriving DecidableEq, Repr

/-- Embeds `pptx.enum.text.PP_ALIGN` (only the members relevant here). -/
inductive PPAlign where
  | LEFT
  | CENTER
  | RIGHT
deriving DecidableEq, Repr

/-- Embeds `pptx.enum.text.MSO_VERTICAL_ANCHOR` (relevant members). -/
inductive MsoVerticalAnchor where
  | TOP
  | MIDDLE
  | BOTTOM
deriving DecidableEq, Repr

/-- One populated text region (a cleared text frame holding a single
styled paragraph), with every attribute `build_pptx` assigns:
vertical anchor and the four margins on the text frame, and the
paragraph font name, size (in points), boldness, color, alignment,
and text. -/
structure TextRegion where
  text : String
  font_name : String
  font_size_pt : Nat
  bold : Bool
  color : RGBColor
  alignment : PPAlign
  vertical_anchor : MsoVerticalAnchor
  margin_left : Nat
  margin_right : Nat
  margin_top : Nat
  margin_bottom : Nat
deriving DecidableEq, Repr

/-- One slide: the layout it was added from, its background fill
(solid, as set by `_black_bg`), and its two populated text regions in
order (title placeholder first, body placeholder second). -/
structure Slide where
  layout_index : Nat
  background : RGBColor
  regions : List TextRegion
deriving DecidableEq, Repr

/-- The rendered presentation: slide size in EMU and the slide list. -/
structure PptxDoc where
  slide_width : Nat
  slide_height : Nat
  slides : List Slide
deriving DecidableEq, Repr

/-- Embeds `_style_para` (src/app.py lines 76-81) together with the
surrounding text-frame setup each call site repeats (clear, top
vertical anchor, all four margins 0, then assign the text): the
resulting region has Calibri white text, left aligned. -/
def styledRegion (text : String) (font_size : Nat) (bold : Bool) : TextRegion :=
  { text := text
    font_name := "Calibri"
    font_size_pt := font_size
    bold := bold
    color := ⟨255, 255, 255⟩
    alignment := .LEFT
    vertical_anchor := .TOP
    margin_left := 0
    margin_right := 0
    margin_top := 0
    margin_bottom := 0 }

/-- The cover slide built at src/app.py lines 91-105: layout 0, black
background (`_black_bg`), title region at 54 pt bold, subtitle region
at 34 pt non-bold. -/
def coverSlideOf (cover : CoverSlide) : Slide :=
  { layout_index := 0
    background := ⟨0, 0, 0⟩
    regions := [styledRegion cover.title 54 true, styledRegion cover.subtitle 34 false] }

/-- One QA slide built in the loop at src/app.py lines 108-122:
layout 1, black background, question region at 40 pt bold, answer
region at 30 pt non-bold.  `qa.slide_number` is never read. -/
def qaSlideOf (qa : QASlide) : Slide :=
  { layout_index := 1
    background := ⟨0, 0, 0⟩
    regions := [styledRegion qa.question 40 true, styledRegion qa.answer 30 false] }

/-- Embeds `build_pptx` (src/app.py lines 84-127): an 11.25 in square
presentation (11.25 in = 10287000 EMU), the cover slide, then one
slide per `qa_slides` element in list order. -/
def build_pptx (carousel : Carousel) : PptxDoc :=
  { slide_width := 10287000
    slide_height := 10287000
    slides := coverSlideOf carousel.cover :: carousel.qa_slides.map qaSlideOf }

/-! ## Filename and submit handler -/

/-- The character substitution `topic.replace(' ', '_')` performs. -/
def sanitizeChar (c : Char) : Char := if c = ' ' then '_' else c

/-- Embeds the call replacing spaces in the topic (src/app.py line
167): the pattern is a single space, so
the replacement maps each character. -/
def sanitizeTopic (topic : String) : String := ⟨topic.data.map sanitizeChar⟩

/-- The download filename built at src/app.py line 167. -/
def file_name (topic : String) : String :=
  "LinkedIn_Carousel_" ++ sanitizeTopic topic ++ ".pptx"

/-- Embeds the prompt template substitution (src/app.py lines 63 and 160):
the fixed instructional scaffold with the topic substituted at both
placeholders. -/
def promptFor (topic : String) : String :=
  "You are an expert content strategist.\n\nTopic: " ++ topic ++
  "\n\nTask:\n1. Write an inspiring one-liner subtitle for the cover slide.\n" ++
  "2. Then identify between 5 and 8 key questions someone would ask about this topic.\n" ++
  "3. For each question, provide a concise (2-3 line) answer.\n\n" ++
  "Format your reply exactly as:\n\nTopic: " ++ topic ++
  "\nSubtitle: <your one-liner>\n\nQuestions & Answers:\n" ++
  "1. Question: <question 1>\n   Answer: <answer 1>\n\n" ++
  "2. Question: <question 2>\n   Answer: <answer 2>\n…"

/-- Observable outcome of one form submission: the user-facing error
message if any, the prompt sent to the completion service if a call
was made, and the rendered document if one was produced. -/
structure SubmitResult where
  errorMsg : Option String
  outboundPrompt : Option String
  document : Option PptxDoc

/-- Embeds the submit handler (src/app.py lines 145-175).  In Python,
the check on a string is true exactly for the empty string.  The two external
calls (`llm.complete` and the structured `sllm.complete`) are passed
in as functions; an uncaught `ValidationError` from the structured
call surfaces as an error and no document is offered. -/
def submitHandler (topic api_key : String)
    (llmComplete : String → String)
    (structuredComplete : String → Except SchemaViolation Carousel) : SubmitResult :=
  if topic = "" then ⟨some "Please enter a topic.", none, none⟩
  else if api_key = "" then ⟨some "Please enter your Groq API key.", none, none⟩
  else
    let prompt := promptFor topic
    let raw := llmComplete prompt
    match structuredComplete raw with
    | .error e => ⟨some e.msg, some prompt, none⟩
    | .ok carousel => ⟨none, some prompt, some (build_pptx carousel)⟩

/-! ## Theorems -/

/-- C1: rendering any `Carousel` succeeds (the function is total) and
the slide count of the produced document is 1 plus the number of
question/answer records. -/
theorem build_pptx_slide_count (c : Carousel) :
    (build_pptx c).slides.length = 1 + c.qa_slides.length := by
  simp [build_pptx, Nat.add_comm]

/-- C2: the two text regions of the first slide hold exactly the cover
title and subtitle, and for every index `i`, slide `i+2` (index `i+1`)
holds exactly the question and answer of record `i`; out-of-range
indices yield no slide on both sides. -/
theorem build_pptx_texts (c : Carousel) :
    ((build_pptx c).slides[0]?).map (fun s => s.regions.map TextRegion.text)
      = some [c.cover.title, c.cover.subtitle]
    ∧ ∀ i : Nat,
      ((build_pptx c).slides[i + 1]?).map (fun s => s.regions.map TextRegion.text)
        = (c.qa_slides[i]?).map (fun qa => [qa.question, qa.answer]) := by
  constructor
  · simp [build_pptx, coverSlideOf, styledRegion]
  · intro i
    simp [build_pptx, qaSlideOf, styledRegion]
    cases h : c.qa_slides[i]? with
    | none => simp [h]
    | some qa => simp [h, qaSlideOf, styledRegion]

/-- Whether one text region follows the fixed theme: solid white text,
left alignment, top vertical anchor, zero margins on all four sides. -/
def regionThemeOk (r : TextRegion) : Bool :=
  r.color == ⟨255, 255, 255⟩ && r.alignment == .LEFT &&
  r.vertical_anchor == .TOP &&
  r.margin_left == 0 && r.margin_right == 0 &&
  r.margin_top == 0 && r.margin_bottom == 0

/-- Whether a slide follows the theme: solid black background and
every populated text region theme-conformant. -/
def slideThemeOk (s : Slide) : Bool :=
  s.background == ⟨0, 0, 0⟩ && s.regions.all regionThemeOk

theorem slideThemeOk_coverSlideOf (cover : CoverSlide) :
    slideThemeOk (coverSlideOf cover) = true := rfl

theorem slideThemeOk_qaSlideOf (qa : QASlide) :
    slideThemeOk (qaSlideOf qa) = true := rfl

/-- C4: every rendered document is square (slide width = slide height)
and every slide has a solid black background with every populated text
region in solid white, left-aligned, top-anchored, zero margins. -/
theorem build_pptx_theme (c : Carousel) :
    (build_pptx c).slide_width = (build_pptx c).slide_height
    ∧ (build_pptx c).slides.all slideThemeOk = true := by
  refine ⟨rfl, ?_⟩
  simp only [build_pptx, List.all_cons, List.all_map, slideThemeOk_coverSlideOf,
    Bool.true_and]
  simp [Function.comp, slideThemeOk_qaSlideOf, List.all_eq_true]

/-- Font size (points) and boldness of region `j` of a slide. -/
def regionFont (s : Slide) (j : Nat) : Option (Nat × Bool) :=
  (s.regions[j]?).map fun r => (r.font_size_pt, r.bold)

/-- C5: the cover title is bold at 54 pt (title-scale), the cover
subtitle non-bold at 34 pt (strictly smaller), every question region
bold at 40 pt (smaller than title-scale, larger than answer-scale),
every answer region non-bold at 30 pt, the smallest of the three
scales 54, 40, 30. -/
theorem build_pptx_font_hierarchy (c : Carousel) :
    ((build_pptx c).slides[0]?).bind (fun s => regionFont s 0) = some (54, true)
    ∧ ((build_pptx c).slides[0]?).bind (fun s => regionFont s 1) = some (34, false)
    ∧ ((build_pptx c).slides.drop 1).all
        (fun s => regionFont s 0 == some (40, true) && regionFont s 1 == some (30, false)) = true
    ∧ 34 < 54 ∧ 40 < 54 ∧ 30 < 40 ∧ 30 = Nat.min 54 (Nat.min 40 30) := by
  refine ⟨?_, ?_, ?_, by decide, by decide, by decide, by decide⟩
  · simp [build_pptx, coverSlideOf, regionFont, styledRegion]
  · simp [build_pptx, coverSlideOf, regionFont, styledRegion]
  simp only [build_pptx, List.drop_succ_cons, List.drop_zero, List.all_map]
  simp [Function.comp, qaSlideOf, regionFont, styledRegion, List.all_eq_true]

/-- Forget the advisory `slide_number` of a cover record. -/
def CoverSlide.erasePos (c : CoverSlide) : CoverSlide := { c with slide_number := 0 }

/-- Forget the advisory `slide_number` of a QA record. -/
def QASlide.erasePos (q : QASlide) : QASlide := { q with slide_number := 0 }

/-- Forget every advisory `slide_number` of a carousel. -/
def Carousel.erasePos (c : Carousel) : Carousel :=
  ⟨c.cover.erasePos, c.qa_slides.map QASlide.erasePos⟩

theorem build_pptx_erasePos (c : Carousel) :
    build_pptx c.erasePos = build_pptx c := by
  unfold build_pptx Carousel.erasePos
  simp only [List.map_map]
  have h : qaSlideOf ∘ QASlide.erasePos = qaSlideOf := by
    funext q; rfl
  rw [h]
  rfl

/-- C9: rendering never reads `slide_number`: two carousels that agree
everywhere except in their position fields render to identical
documents (slides are emitted in sequence order). -/
theorem build_pptx_ignores_positions (c1 c2 : Carousel)
    (h : c1.erasePos = c2.erasePos) : build_pptx c1 = build_pptx c2 := by
  rw [← build_pptx_erasePos c1, h, build_pptx_erasePos c2]

/-- Witness for C9 at two concrete carousels differing only in their
position fields. -/
theorem build_pptx_ignores_positions_witness :
    Carousel.erasePos ⟨⟨1, "cover", "T", "S"⟩, [⟨2, "qa", "Q", "A"⟩]⟩
      = Carousel.erasePos ⟨⟨9, "cover", "T", "S"⟩, [⟨4, "qa", "Q", "A"⟩]⟩
    ∧ build_pptx ⟨⟨1, "cover", "T", "S"⟩, [⟨2, "qa", "Q", "A"⟩]⟩
      = build_pptx ⟨⟨9, "cover", "T", "S"⟩, [⟨4, "qa", "Q", "A"⟩]⟩ :=
  ⟨rfl, build_pptx_ignores_positions _ _ rfl⟩

/-- C10: `build_pptx` is total over every `Carousel` (it is a total
function in this embedding), and on a carousel whose QA list is empty
it returns the one-slide document holding only the cover slide. -/
theorem build_pptx_empty_qa (c : Carousel) (h : c.qa_slides = []) :
    (build_pptx c).slides = [coverSlideOf c.cover]
    ∧ (build_pptx c).slides.length = 1 := by
  simp [build_pptx, h]

/-- Witness for C10 at a concrete carousel with no QA records. -/
theorem build_pptx_empty_qa_witness :
    (Carousel.mk ⟨1, "cover", "T", "S"⟩ []).qa_slides = []
    ∧ ((build_pptx ⟨⟨1, "cover", "T", "S"⟩, []⟩).slides
        = [coverSlideOf ⟨1, "cover", "T", "S"⟩]
      ∧ (build_pptx ⟨⟨1, "cover", "T", "S"⟩, []⟩).slides.length = 1) :=
  ⟨rfl, build_pptx_empty_qa ⟨⟨1, "cover", "T", "S"⟩, []⟩ rfl⟩

/-- C7 counterexample: the claim that every non-alphanumeric and space
character of the topic is replaced (so the filename is
filesystem-safe) is false: for topic "a/b" the slash survives into the
filename untouched. -/
theorem file_name_not_filesystem_safe :
    ¬ (∀ ch ∈ (file_name "a/b").data, ch.isAlphanum ∨ ch = '_' ∨ ch = '.') := by
  decide

/-- C7 amended: the filename replaces only the space characters of the
topic with underscores; every other topic character, alphanumeric or
not, is kept verbatim.  Hence the filename contains no space, and every
character of the sanitized part is an underscore or a character of the
topic. -/
theorem file_name_replaces_only_spaces (topic : String) :
    file_name topic = "LinkedIn_Carousel_" ++ sanitizeTopic topic ++ ".pptx"
    ∧ (sanitizeTopic topic).data.all (fun ch => ch != ' ') = true
    ∧ (sanitizeTopic topic).data.all
        (fun ch => ch == '_' || topic.data.contains ch) = true := by
  refine ⟨rfl, ?_, ?_⟩
  · cases topic with
    | mk l =>
      simp only [sanitizeTopic, List.all_map, List.all_eq_true, Function.comp]
      intro ch _
      simp only [sanitizeChar]
      by_cases h : ch = ' ' <;> simp [h]
  · cases topic with
    | mk l =>
      simp only [sanitizeTopic, List.all_map, List.all_eq_true, Function.comp]
      intro ch hch
      simp only [sanitizeChar]
      by_cases h : ch = ' '
      · simp [h]
      · simp only [h, if_false, Bool.or_eq_true, beq_iff_eq]
        right
        exact List.elem_eq_true_of_mem hch

/-- C8: a submission whose topic or API key is the empty string is
rejected at the form boundary with a user-facing error; no outbound
completion call is made and no document is produced, whatever the
external services would have answered. -/
theorem submit_rejects_empty (topic api_key : String)
    (llmComplete : String → String)
    (structuredComplete : String → Except SchemaViolation Carousel)
    (h : topic = "" ∨ api_key = "") :
    (submitHandler topic api_key llmComplete structuredComplete).errorMsg.isSome = true
    ∧ (submitHandler topic api_key llmComplete structuredComplete).outboundPrompt = none
    ∧ (submitHandler topic api_key llmComplete structuredComplete).document = none := by
  rcases h with h | h
  · simp [submitHandler, h]
  · by_cases ht : topic = "" <;> simp [submitHandler, ht, h]

/-- Witness for C8: the empty topic with a nonempty key and arbitrary
concrete services. -/
theorem submit_rejects_empty_witness :
    (("" : String) = "" ∨ ("k" : String) = "")
    ∧ ((submitHandler "" "k" (fun _ => "raw")
          (fun _ => .error ⟨"e"⟩)).errorMsg.isSome = true
      ∧ (submitHandler "" "k" (fun _ => "raw")
          (fun _ => .error ⟨"e"⟩)).outboundPrompt = none
      ∧ (submitHandler "" "k" (fun _ => "raw")
          (fun _ => .error ⟨"e"⟩)).document = none) :=
  ⟨Or.inl rfl,
   submit_rejects_empty "" "k" (fun _ => "raw") (fun _ => .error ⟨"e"⟩) (Or.inl rfl)⟩

theorem isOkB_false_iff {ε α : Type} (x : Except ε α) :
    isOkB x = false ↔ ∃ e, x = .error e := by
  cases x <;> simp [isOkB]

theorem validateQA_err_of_bad_tag (rq : RawQA) (htag : rq.type ≠ some "qa") :
    isOkB (validateQA rq) = false := by
  rcases rq with ⟨n, t, q, a⟩
  rcases n with _ | n <;> rcases t with _ | t <;> rcases q with _ | q <;>
    rcases a with _ | a <;> simp [validateQA, isOkB]
  all_goals
    have ht : t ≠ "qa" := fun h => htag (by simp_all)
  all_goals simp [ht, isOkB]

theorem validateCover_err_of_bad_tag (rc : RawCover) (htag : rc.type ≠ some "cover") :
    isOkB (validateCover rc) = false := by
  rcases rc with ⟨n, t, ti, su⟩
  rcases n with _ | n <;> rcases t with _ | t <;> rcases ti with _ | ti <;>
    rcases su with _ | su <;> simp [validateCover, isOkB]
  all_goals
    have ht : t ≠ "cover" := fun h => htag (by simp_all)
  all_goals simp [ht, isOkB]

theorem validateQAList_err_of_mem (rqs : List RawQA) (rq : RawQA)
    (hmem : rq ∈ rqs) (hbad : isOkB (validateQA rq) = false) :
    isOkB (validateQAList rqs) = false := by
  induction rqs with
  | nil => cases hmem
  | cons r rs ih =>
    rcases List.mem_cons.mp hmem with h | h
    · subst h
      rcases (isOkB_false_iff _).mp hbad with ⟨e, he⟩
      simp only [validateQAList, he]
      rfl
    · cases hv : validateQA r with
      | error e =>
        simp only [validateQAList, hv]
        rfl
      | ok q =>
        cases hl : validateQAList rs with
        | error e =>
          simp only [validateQAList, hv, hl]
          rfl
        | ok qs =>
          have := ih h
          rw [hl] at this
          simp [isOkB] at this

/-- A concrete completion payload with a well-formed cover block and an
empty question/answer array. -/
def zeroQaPayload : RawCarousel :=
  ⟨some ⟨some 1, some "cover", some "Game Theory", some "Outsmart"⟩, some []⟩

/-- C3 counterexample: a payload with zero question/answer pairs does
NOT raise `SchemaViolation`: the validator accepts it (the list field
declares no minimum length) and a document is produced from it. -/
theorem validator_accepts_zero_qa :
    zeroQaPayload.qa_slides = some []
    ∧ isOkB (validateCarousel zeroQaPayload) = true
    ∧ (submitHandler "t" "k" (fun _ => "raw")
        (fun _ => validateCarousel zeroQaPayload)).document.isSome = true := by
  decide

/-- C3 amended: a payload missing its cover block, or whose cover
carries a tag other than "cover", or one of whose question/answer
blocks carries a tag other than "qa", is rejected by the validator,
and a submission whose structured completion fails that way produces
no document.  (A payload with zero question/answer pairs, by contrast,
is accepted.) -/
theorem validate_rejects_malformed (p : RawCarousel)
    (h : p.cover = none
      ∨ (∃ rc, p.cover = some rc ∧ rc.type ≠ some "cover")
      ∨ (∃ rqs rq, p.qa_slides = some rqs ∧ rq ∈ rqs ∧ rq.type ≠ some "qa")) :
    isOkB (validateCarousel p) = false
    ∧ (submitHandler "t" "k" (fun _ => "raw")
        (fun _ => validateCarousel p)).document = none := by
  have hmain : isOkB (validateCarousel p) = false := by
    rcases p with ⟨pc, pq⟩
    rcases h with h | ⟨rc, hrc, htag⟩ | ⟨rqs, rq, hrqs, hmem, htag⟩
    · simp only at h
      subst h
      cases pq <;> rfl
    · simp only at hrc
      subst hrc
      cases pq with
      | none => rfl
      | some rqs =>
        have hc := validateCover_err_of_bad_tag rc htag
        rcases (isOkB_false_iff _).mp hc with ⟨e, he⟩
        simp only [validateCarousel, he]
        rfl
    · simp only at hrqs
      subst hrqs
      cases pc with
      | none => rfl
      | some rc =>
        cases hv : validateCover rc with
        | error e =>
          simp only [validateCarousel, hv]
          rfl
        | ok cov =>
          have hq := validateQAList_err_of_mem rqs rq hmem
            (validateQA_err_of_bad_tag rq htag)
          rcases (isOkB_false_iff _).mp hq with ⟨e, he⟩
          simp only [validateCarousel, hv, he]
          rfl
  refine ⟨hmain, ?_⟩
  rcases (isOkB_false_iff _).mp hmain with ⟨e, he⟩
  simp [submitHandler, he]

/-- Witness for C3 (amended) at the payload with no cover block. -/
theorem validate_rejects_malformed_witness :
    ((⟨none, some []⟩ : RawCarousel).cover = none
      ∨ (∃ rc, (⟨none, some []⟩ : RawCarousel).cover = some rc ∧ rc.type ≠ some "cover")
      ∨ (∃ rqs rq, (⟨none, some []⟩ : RawCarousel).qa_slides = some rqs
          ∧ rq ∈ rqs ∧ rq.type ≠ some "qa"))
    ∧ (isOkB (validateCarousel ⟨none, some []⟩) = false
      ∧ (submitHandler "t" "k" (fun _ => "raw")
          (fun _ => validateCarousel ⟨none, some []⟩)).document = none) :=
  ⟨Or.inl rfl, validate_rejects_malformed ⟨none, some []⟩ (Or.inl rfl)⟩

/-- A well-typed carousel whose cover claims position 7 and whose only
QA record claims position 99. -/
def oddPositions : Carousel := ⟨⟨7, "cover", "T", "S"⟩, [⟨99, "qa", "Q", "A"⟩]⟩

/-- C6 counterexample: the validator accepts a payload whose cover
position is 7 (not 1) and whose QA position is 99 (not sequential from
2): `slide_number` values are only type-checked, never
value-checked. -/
theorem validator_accepts_position_seven :
    isOkB (validateCarousel oddPositions.toRaw) = true
    ∧ (validateCarousel oddPositions.toRaw).toOption.map
        (fun c => c.cover.slide_number) = some 7
    ∧ (validateCarousel oddPositions.toRaw).toOption.map
        (fun c => c.qa_slides.map QASlide.slide_number) = some [99]
    ∧ (7 : Int) ≠ 1 := by
  decide

theorem validateQA_toRaw (q : QASlide) (hq : q.type = "qa") :
    validateQA q.toRaw = .ok q := by
  rcases q with ⟨n, t, qq, a⟩
  simp only at hq
  subst hq
  rfl

theorem validateCover_toRaw (cover : CoverSlide) (h : cover.type = "cover") :
    validateCover cover.toRaw = .ok cover := by
  rcases cover with ⟨n, t, ti, su⟩
  simp only at h
  subst h
  rfl

theorem validateQAList_toRaw (qs : List QASlide)
    (h : ∀ q ∈ qs, q.type = "qa") :
    validateQAList (qs.map QASlide.toRaw) = .ok qs := by
  induction qs with
  | nil => rfl
  | cons q rest ih =>
    have hq := validateQA_toRaw q (h q (List.mem_cons_self q rest))
    have hrest := ih (fun x hx => h x (List.mem_cons_of_mem q hx))
    simp only [List.map_cons, validateQAList, hq, hrest]
    rfl

/-- C6 amended: the validator imposes no constraint on the position
values: every well-typed carousel, whatever integers its
`slide_number` fields hold, round-trips through validation and is
accepted; only the discriminant tags are value-checked. -/
theorem validate_accepts_any_positions (c : Carousel)
    (h1 : c.cover.type = "cover") (h2 : ∀ q ∈ c.qa_slides, q.type = "qa") :
    validateCarousel c.toRaw = .ok c := by
  rcases c with ⟨cover, qs⟩
  simp only at h1 h2
  simp only [Carousel.toRaw, validateCarousel, validateCover_toRaw cover h1,
    validateQAList_toRaw qs h2]
  rfl

/-- Witness for C6 (amended) at the carousel with positions 7 and 99. -/
theorem validate_accepts_any_positions_witness :
    oddPositions.cover.type = "cover"
    ∧ (∀ q ∈ oddPositions.qa_slides, q.type = "qa")
    ∧ validateCarousel oddPositions.toRaw = .ok oddPositions :=
  ⟨rfl, by decide, validate_accepts_any_positions oddPositions rfl (by decide)⟩
